import Mathlib

set_option maxHeartbeats 1000000
set_option maxRecDepth 4000

namespace VideoBot

/-! Shallow embedding of the update-processing core of the telegram-n8n-video-bot
repository: the Telegram update processor, its private-chat wizard state machine,
the group-chat template parser, and the tag-splitting helpers.  Definitions are
translated from the TypeScript source (`TelegramUpdateProcessor`, `parseTags`,
`splitTags`, `parseGroupTemplate`, `isMentioned`, `limit`, `guidanceTemplate`).
JavaScript strings are modelled as Lean `String`s over their character lists;
JavaScript truthiness of optional strings / numbers is modelled explicitly. -/

/-- Whitespace test matching the JavaScript regular-expression class `\s`
(which is also the character set removed by `String.prototype.trim`). -/
def isJsWs (c : Char) : Bool :=
  c = ' ' || c = '\t' || c = '\n' || c = '\r' || c = '\x0b' || c = '\x0c' ||
  c = '\u00A0' || c = '\u1680' || (0x2000 ≤ c.val && c.val ≤ 0x200A) ||
  c = '\u2028' || c = '\u2029' || c = '\u202F' || c = '\u205F' || c = '\u3000' ||
  c = '\uFEFF'

/-- Trim of a character list, as `String.prototype.trim`. -/
def jsTrimL (cs : List Char) : List Char :=
  ((cs.dropWhile isJsWs).reverse.dropWhile isJsWs).reverse

/-- Trim of a string, as `String.prototype.trim`. -/
def jsTrim (s : String) : String := ⟨jsTrimL s.data⟩

/-- Lower-casing as `String.prototype.toLowerCase`; `Char.toLower` agrees with it
on the ASCII range, which covers every cased character this program compares
(commands, Telegram handles). -/
def jsLowerStr (s : String) : String := ⟨s.data.map Char.toLower⟩

/-- Truthiness of a JS value of static type `string | undefined`:
`undefined` and the empty string are falsy. -/
def jsTruthyS : Option String → Bool
  | none => false
  | some s => s ≠ ""

/-- Truthiness of a JS value of static type `number | undefined`:
`undefined` and `0` are falsy. -/
def jsTruthyI : Option Int → Bool
  | none => false
  | some i => i ≠ 0

/-- The JS `a || b` operator on `string | undefined` values. -/
def jsOrS (a b : Option String) : Option String :=
  if jsTruthyS a then a else b

/-- Character class `[,،\n]` of the tag-splitting regular expression. -/
def isSepChar (c : Char) : Bool := c = ',' || c = '،' || c = '\n'

def isCharA (c : Char) : Bool := c = 'a' || c = 'A'
def isCharN (c : Char) : Bool := c = 'n' || c = 'N'
def isCharD (c : Char) : Bool := c = 'd' || c = 'D'

/-- One attempt to match the separator regular expression
`[,،\n]+|\s*و\s*|\s*and\s*` (flag `i`) at the head of `cs`.  Returns the rest of
the input after the match when one of the alternatives matches here, `none`
otherwise.  Alternatives are tried in order, as in the JavaScript engine; the
greedy `\s*` pieces are resolved to maximal whitespace runs, which is exactly
what backtracking yields because neither `و` nor `a` is whitespace.
`matchAfterWs` handles the second and third alternative once the leading
whitespace run has been skipped. -/
def matchAfterWs : List Char → Option (List Char)
  | [] => none
  | x :: r =>
    if x = 'و' then some (r.dropWhile isJsWs)
    else
      match r with
      | n :: d :: r2 =>
        if isCharA x && isCharN n && isCharD d then some (r2.dropWhile isJsWs)
        else none
      | _ => none

def matchSep (cs : List Char) : Option (List Char) :=
  match cs with
  | [] => none
  | c :: rest =>
    if isSepChar c then some (rest.dropWhile isSepChar)
    else matchAfterWs ((c :: rest).dropWhile isJsWs)

/-- Splitting scan of `String.prototype.split` with the separator regular
expression: walk the input, cutting a piece at every separator match.  `fuel`
bounds the recursion; every step consumes at least one character, so
`fuel = cs.length` is always sufficient (see `splitAux_fuel` uses below). -/
def splitAux : Nat → List Char → List Char → List (List Char)
  | _, [], acc => [acc.reverse]
  | 0, cs, acc => [acc.reverse ++ cs]
  | Nat.succ f, c :: rest, acc =>
    match matchSep (c :: rest) with
    | some r => acc.reverse :: splitAux f r []
    | none => splitAux f rest (c :: acc)

/-- `String.prototype.split` with the tag-separator regular expression. -/
def jsSplitSep (cs : List Char) : List (List Char) := splitAux cs.length cs []

/-- One application of `replace(/^#/, "")`: strip a single leading `#`. -/
def stripHash : List Char → List Char
  | '#' :: t => t
  | cs => cs

/-- Map-trim then drop empty pieces, the common tail of both tag pipelines. -/
def trimFilter (xs : List (List Char)) : List (List Char) :=
  (xs.map jsTrimL).filter (fun t => t ≠ [])

/-- Tag splitting of the group template parser (`splitTags` in the source), on
character lists: split on `[,،\n]+|\s*و\s*|\s*and\s*`, trim each piece, drop
empties, strip one leading `#` per piece.  The 30-entry cap is applied by the
caller (`parseGroupTemplate`), not here. -/
def splitTagsL (cs : List Char) : List (List Char) :=
  if cs = [] then []
  else (trimFilter (jsSplitSep cs)).map stripHash

/-- `splitTags` from the source. -/
def splitTags (s : String) : List String :=
  (splitTagsL s.data).map (fun l => (⟨l⟩ : String))

/-- Prepend a character to the first piece of a split result. -/
def consHead (c : Char) : List (List Char) → List (List Char)
  | [] => [[c]]
  | p :: ps => (c :: p) :: ps

/-- `String.prototype.split(",")` with a plain one-character string separator:
every comma cuts, empty pieces are kept. -/
def splitEveryComma : List Char → List (List Char)
  | [] => [[]]
  | c :: rest =>
    if c = ',' then [] :: splitEveryComma rest
    else consHead c (splitEveryComma rest)

/-- The private-wizard tag parser (`parseTags` in the source), on character
lists: split on ASCII commas only, trim, drop empties, strip one leading `#`,
cap at 30 entries. -/
def parseTagsL (cs : List Char) : List (List Char) :=
  ((trimFilter (splitEveryComma cs)).map stripHash).take 30

/-- `parseTags` from the source. -/
def parseTags (s : String) : List String :=
  (parseTagsL s.data).map (fun l => (⟨l⟩ : String))

/-- Occurrence test for the case-insensitive letters `and` as three consecutive
characters anywhere in the list; used to delimit inputs on which the extra
separator alternatives of `splitTags` never fire. -/
def hasAndTriple : List Char → Bool
  | a :: n :: d :: rest => (isCharA a && isCharN n && isCharD d) || hasAndTriple (n :: d :: rest)
  | _ => false

/-- Characters that trigger a separator alternative of `splitTags` beyond the
ASCII comma. -/
def okChar (c : Char) : Bool := !(c = '،' || c = '\n' || c = 'و')

/-- Inputs free of every `splitTags` separator except the ASCII comma. -/
def noExtraSeps (cs : List Char) : Bool := cs.all okChar && !hasAndTriple cs

/-- Prepend a chunk of characters to the first piece of a split result. -/
def prependHead (p : List Char) : List (List Char) → List (List Char)
  | [] => [p]
  | h :: t => (p ++ h) :: t

/-! Telegram data model, as declared in the source (`TgUser`, `TgChat`,
`TgVideo`, `TgDocument`, `TgMessageEntity`, `TgMessage`, `TgUpdate`).
Optional fields are `Option`s; `undefined` is `none`. -/

structure TgUser where
  id : Int
  username : Option String := none
  first_name : Option String := none
  last_name : Option String := none
  language_code : Option String := none
deriving Repr, DecidableEq

structure TgChat where
  id : Int
  type : String
deriving Repr, DecidableEq

structure TgVideo where
  file_id : String
  file_unique_id : Option String := none
  duration : Option Nat := none
  mime_type : Option String := none
  file_size : Option Nat := none
deriving Repr, DecidableEq

structure TgDocument where
  file_id : String
  file_unique_id : Option String := none
  mime_type : Option String := none
  file_name : Option String := none
  file_size : Option Nat := none
deriving Repr, DecidableEq

structure TgMessageEntity where
  offset : Nat
  length : Nat
  type : String
  user : Option TgUser := none
deriving Repr, DecidableEq

/-- The replied-to message.  The processor reads only the `video` and
`document` attachments of `reply_to_message`, so the embedding keeps just
those two fields of the nested message. -/
structure TgReplyMessage where
  video : Option TgVideo := none
  document : Option TgDocument := none
deriving Repr, DecidableEq

structure TgMessage where
  message_id : Nat
  from_ : Option TgUser := none
  chat : TgChat
  date : Nat
  text : Option String := none
  video : Option TgVideo := none
  document : Option TgDocument := none
  entities : Option (List TgMessageEntity) := none
  caption : Option String := none
  caption_entities : Option (List TgMessageEntity) := none
  reply_to_message : Option TgReplyMessage := none
deriving Repr, DecidableEq

structure TgUpdate where
  update_id : Nat
  message : Option TgMessage := none
deriving Repr, DecidableEq

/-- Per-conversation wizard state (`ChatState` in the source).  The source
types `step` as a union of five string literals, but values read back from
the key-value store can be anything, and the processor has an explicit
default branch for unknown steps, so the embedding uses `String`. -/
structure ChatState where
  chatId : Int
  step : String
  video_file_id : Option String := none
  title : Option String := none
  description : Option String := none
  tags : Option (List String) := none
  updatedAt : Nat
deriving Repr, DecidableEq

/-- Submitter identity embedded in the outbound payload. -/
structure PayloadFrom where
  id : Int
  username : Option String := none
  first_name : Option String := none
  last_name : Option String := none
  language_code : Option String := none
deriving Repr, DecidableEq

structure PayloadVideo where
  file_id : String
  file_path : Option String := none
  file_size : Option Nat := none
deriving Repr, DecidableEq

/-- Outbound submission payload (`N8nVideoPayload` in the source). -/
structure N8nVideoPayload where
  chat_id : Int
  from_ : Option PayloadFrom := none
  message_id : Nat
  date : Nat
  video : PayloadVideo
  title : String
  description : String
  tags : List String
  source_link : Option String := none
  channel : Option String := none
deriving Repr, DecidableEq

/-- One operation issued against the chat-state repository. -/
inductive RepoOp where
  | save (state : ChatState)
  | delete (chatId : Int)
deriving Repr, DecidableEq

/-- Observable effects of processing one update: repository operations,
texts sent with `sendMessage`, chat actions, and workflow dispatches, each
in issue order. -/
structure Effects where
  repoOps : List RepoOp := []
  messages : List String := []
  actions : List String := []
  dispatches : List N8nVideoPayload := []
deriving Repr, DecidableEq

/-- Results of the external collaborators consulted while processing one
update: the cached bot identity (`getMe`), the `getFile` validation outcome,
the workflow response, and the clock (`Date.now`). -/
structure Ext where
  botUsername : Option String := none
  botId : Option Int := none
  fileOk : Bool := true
  fileDescription : Option String := none
  filePath : Option String := none
  fileSize : Option Nat := none
  n8nOk : Bool := true
  n8nStatus : Nat := 200
  n8nBody : Option String := none
  now : Nat := 0
deriving Repr, DecidableEq

/-- Case-insensitive list equality of a pattern against the head of a list;
`Char.toLower` matches JS lower-casing on the ASCII range used by handles. -/
def startsWithCI : List Char → List Char → Bool
  | [], _ => true
  | _ :: _, [] => false
  | a :: as, b :: bs => (Char.toLower a == Char.toLower b) && startsWithCI as bs

/-- Plain list equality of a pattern against the head of a list. -/
def startsWithL : List Char → List Char → Bool
  | [], _ => true
  | _ :: _, [] => false
  | a :: as, b :: bs => (a == b) && startsWithL as bs

/-- `String.prototype.includes`: does `needle` occur in the list? -/
def containsLAux (needle : List Char) : List Char → Bool
  | [] => startsWithL needle []
  | c :: t => startsWithL needle (c :: t) || containsLAux needle t

/-- `hay.includes(needle)`. -/
def strContains (hay needle : String) : Bool := containsLAux needle.data hay.data

/-- `String.prototype.startsWith`. -/
def strStartsWith (s pre : String) : Bool := startsWithL pre.data s.data

/-- `String.prototype.substring(a, b)` for `a ≤ b`, clamped at the ends.
The source indexes in UTF-16 units; the embedding indexes in code points,
which agrees on the basic-multilingual-plane text this bot handles. -/
def jsSubstring (s : String) (a b : Nat) : String := ⟨(s.data.take b).drop a⟩

/-- `String.prototype.slice(0, n)`. -/
def jsSlice (s : String) (n : Nat) : String := ⟨s.data.take n⟩

/-- `limit` from the source: cap a string at `n` characters. -/
def limit (s : String) (n : Nat) : String :=
  if s.length > n then ⟨s.data.take n⟩ else s

/-- `Array.prototype.join(sep)`. -/
def joinSep (sep : String) : List String → String
  | [] => ""
  | [x] => x
  | x :: xs => x ++ sep ++ joinSep sep xs

/-- The expression `msg.text || msg.caption || ""` from `isMentioned`
(the raw, untrimmed effective text). -/
def effText (msg : TgMessage) : String :=
  if jsTruthyS msg.text then msg.text.getD ""
  else if jsTruthyS msg.caption then msg.caption.getD "" else ""

/-- The concatenation `(msg.entities || []).concat(msg.caption_entities || [])`. -/
def allEntities (msg : TgMessage) : List TgMessageEntity :=
  msg.entities.getD [] ++ msg.caption_entities.getD []

/-- The per-entity test of the `isMentioned` loop: a `text_mention` entity
whose user id is truthy and equals the (truthy) bot id, or a `mention`
entity whose covered text equals `@username` case-insensitively. -/
def entityHit (text : String) (botUsername : Option String) (botId : Option Int)
    (e : TgMessageEntity) : Bool :=
  (e.type == "text_mention"
    && (match e.user with | some u => decide (u.id ≠ 0) | none => false)
    && jsTruthyI botId
    && (match e.user, botId with | some u, some b => u.id == b | _, _ => false))
  || (e.type == "mention" && jsTruthyS botUsername && text != ""
    && (jsLowerStr (jsSubstring text e.offset (e.offset + e.length))
          == jsLowerStr ("@" ++ botUsername.getD "")))

/-- `isMentioned` from the source: entity scan first, then the substring
fallback over the raw text whenever the bot has a username and the text is
non-empty. -/
def isMentioned (msg : TgMessage) (botUsername : Option String) (botId : Option Int) : Bool :=
  if !(jsTruthyS botUsername) && !(jsTruthyI botId) then false
  else if (allEntities msg).any (entityHit (effText msg) botUsername botId) then true
  else if jsTruthyS botUsername && effText msg != "" then
    strContains (jsLowerStr (effText msg)) (jsLowerStr ("@" ++ botUsername.getD ""))
  else false

/-- Parsed template produced by `parseGroupTemplate`. -/
structure ParsedTemplate where
  source_link : Option String := none
  channel : Option String := none
  title : Option String := none
  description : Option String := none
  tags : Option (List String) := none
deriving Repr, DecidableEq

/-- Section cursor of the template parser. -/
inductive TplSection where
  | noneSec | upload | channel | titleSec | descSec | tagsSec
deriving Repr, DecidableEq

/-- Accumulator of the template parser's line loop. -/
structure TplAcc where
  sec : TplSection := .noneSec
  source_link : Option String := none
  channel : List String := []
  title : Option String := none
  desc : List String := []
  tagsRaw : List String := []
deriving Repr, DecidableEq

/-- The header normalization `s.replace(/[:：]/g, "").trim()`. -/
def stripColonsTrim (s : String) : String :=
  jsTrim ⟨s.data.filter fun c => !(c = ':' || c = '：')⟩

/-- The tags-header test `/^تگ(\s*|‌)?ها$/i.test(t) || /^تگ$/i.test(t)`:
the two letters of the word, then an optional whitespace run or a single
zero-width non-joiner, then the plural suffix; or the bare word. -/
def tagsHeader (t : String) : Bool :=
  t == "تگ" ||
  (match t.data with
   | 'ت' :: 'گ' :: r =>
     (r.dropWhile isJsWs == ['ه', 'ا']) || (r == ['\u200C', 'ه', 'ا'])
   | _ => false)

/-- The `isHeader` helper of `parseGroupTemplate`. -/
def isHeader (s : String) : Option TplSection :=
  let t := stripColonsTrim s
  if t = "آپلود" then some .upload
  else if t = "کانال" then some .channel
  else if t = "عنوان" then some .titleSec
  else if t = "توضیح" then some .descSec
  else if tagsHeader t then some .tagsSec
  else none

def isAlphaCh (c : Char) : Bool := ('a' ≤ c && c ≤ 'z') || ('A' ≤ c && c ≤ 'Z')

def isSchemeChar (c : Char) : Bool :=
  isAlphaCh c || ('0' ≤ c && c ≤ '9') || c = '+' || c = '-' || c = '.'

/-- The source's `isUrl` delegates to the WHATWG `URL` constructor.  It is
modelled here as accepting `scheme://rest` with an alphabetic scheme head and
a non-empty rest, which agrees with the constructor's verdict on the absolute
`http(s)`-style links this bot exchanges. -/
def isUrl (s : String) : Bool :=
  match s.data with
  | [] => false
  | c :: rest =>
    isAlphaCh c &&
    (match (c :: rest).dropWhile isSchemeChar with
     | ':' :: '/' :: '/' :: r => !r.isEmpty
     | _ => false)

/-- One iteration of the template parser's line loop: a header line moves the
cursor, any other line feeds the active section's accumulator. -/
def tplStep (acc : TplAcc) (l : String) : TplAcc :=
  match isHeader l with
  | some h => { acc with sec := h }
  | none =>
    match acc.sec with
    | .upload =>
      if !(jsTruthyS acc.source_link) && isUrl l then { acc with source_link := some l } else acc
    | .channel => { acc with channel := acc.channel ++ [l] }
    | .titleSec => if !(jsTruthyS acc.title) then { acc with title := some l } else acc
    | .descSec => { acc with desc := acc.desc ++ [l] }
    | .tagsSec => { acc with tagsRaw := acc.tagsRaw ++ [l] }
    | .noneSec => acc

/-- `text.split(/\r?\n/)`: cut at every newline, consuming a carriage return
that immediately precedes it; a lone carriage return does not cut. -/
def splitNewlines : List Char → List (List Char)
  | [] => [[]]
  | '\r' :: '\n' :: rest => [] :: splitNewlines rest
  | '\n' :: rest => [] :: splitNewlines rest
  | c :: rest => consHead c (splitNewlines rest)

/-- Global case-insensitive removal of the pattern, as
`replace(new RegExp("@" + escapeRegExp(u), "ig"), "")`: scan left to right,
skipping each non-overlapping occurrence.  `fuel = cs.length` always
suffices because each step consumes at least one character. -/
def removeMentionAux (pat : List Char) : Nat → List Char → List Char
  | _, [] => []
  | 0, cs => cs
  | Nat.succ f, c :: rest =>
    if !pat.isEmpty && startsWithCI pat (c :: rest) then
      removeMentionAux pat f (rest.drop (pat.length - 1))
    else c :: removeMentionAux pat f rest

def removeMention (s : String) (pat : String) : String :=
  ⟨removeMentionAux pat.data s.data.length s.data⟩

/-- `parseGroupTemplate` from the source: strip the bot mention, split into
non-empty trimmed lines, run the section loop, then assemble the result with
the caps (`title` 100, `description` 5000, `tags` 30) and the null check. -/
def parseGroupTemplate (input : String) (botUsername : Option String) : Option ParsedTemplate :=
  let text := if jsTruthyS botUsername then removeMention input ("@" ++ botUsername.getD "") else input
  let lines := (((splitNewlines text.data).map jsTrimL).filter (fun l => l ≠ [])).map
    (fun l => (⟨l⟩ : String))
  let acc := lines.foldl tplStep {}
  let tags := splitTags (joinSep " " acc.tagsRaw)
  let result : ParsedTemplate :=
    { source_link := acc.source_link
      channel := if joinSep " " acc.channel ≠ "" then some (joinSep " " acc.channel) else none
      title := acc.title.map (fun t => jsSlice t 100)
      description :=
        if jsSlice (joinSep "\n" acc.desc) 5000 ≠ "" then some (jsSlice (joinSep "\n" acc.desc) 5000)
        else none
      tags := if tags.length > 0 then some (tags.take 30) else none }
  if jsTruthyS result.title = false ∧ jsTruthyS result.description = false ∧
      (result.tags.getD []).length = 0 then none
  else some result

/-- The completeness test applied by the group flow to a parsed template:
`parsed.title && parsed.description && parsed.tags && parsed.tags.length > 0`. -/
def templateComplete (p : ParsedTemplate) : Bool :=
  jsTruthyS p.title && jsTruthyS p.description &&
    (match p.tags with | some ts => decide (0 < ts.length) | none => false)

/-! User-facing message texts, verbatim from the source. -/

def guidanceTemplate : String :=
  joinSep "\n"
    [ "لطفاً پیام خود را با منشن کردن ربات و در قالب زیر ارسال کنید:",
      "",
      "@BOT_USERNAME",
      "آپلود",
      "https://t.me/YOUR_CHANNEL/MESSAGE_ID (اختیاری)",
      "",
      "کانال:",
      "نام کانال شما",
      "",
      "عنوان:",
      "عنوان ویدیو",
      "",
      "توضیح:",
      "توضیحات ویدیو",
      "",
      "تگ ها:",
      "تگ۱ و تگ۲ و تگ۳",
      "",
      "نکات:",
      "- لینک در بخش آپلود اختیاری است.",
      "- تگ‌ها را می‌توانید با ویرگول، 'و' یا سطر جدید جدا کنید.",
      "- برای اطمینان از انتخاب ویدیوی درست، روی پیامِ ویدیوی تلگرام REPLY بزنید و این قالب را به همراه منشن ارسال کنید." ]

def msgWelcome : String :=
  joinSep "\n"
    [ "سلام! 👋",
      "این ربات اطلاعات ویدیو را جمع‌آوری می‌کند و برای n8n می‌فرستد تا در یوتیوب آپلود شود.",
      "لطفاً ویدیوی خود را ارسال کنید تا شروع کنیم.",
      "برای لغو در هر مرحله: /cancel" ]

/-- Confirmation summary (`msgConfirm`), built from the state as stored. -/
def msgConfirm (state : ChatState) : String :=
  let tagsStr := joinSep " " ((state.tags.getD []).map (fun t => "#" ++ t))
  joinSep "\n"
    [ "لطفاً اطلاعات زیر را بررسی کنید:",
      "عنوان: " ++ (if jsTruthyS state.title then state.title.getD "" else "-"),
      "توضیحات: " ++ (if jsTruthyS state.description then state.description.getD "" else "-"),
      "تگ‌ها: " ++ (if tagsStr ≠ "" then tagsStr else "-"),
      "اگر مورد تایید است، confirm یا /confirm را ارسال کنید. برای لغو: cancel یا /cancel" ]

def needReplyWithLink : String :=
  "برای این پیام که لینک منبع دارد، حتما باید روی پیام ویدیوی تلگرام REPLY بزنید تا همان ویدیو انتخاب شود."

def needAttachOrReply : String :=
  "برای ارسال به n8n لازم است ویدیوی تلگرام را ضمیمه کنید یا پیام شما ریپلایِ مستقیم به پیامِ ویدیوی تلگرام باشد."

def fileErrorMsg (desc : Option String) : String :=
  "خطا در دریافت فایل از تلگرام: " ++
    (if jsTruthyS desc then desc.getD "" else "file_id نامعتبر یا فایل موقتاً در دسترس نیست") ++
    ".\nلطفاً ویدیو را مستقیماً در همین گروه ارسال کنید و سپس روی همان پیام REPLY کرده و قالب را بفرستید."

def internalEmptyMsg : String := "خطای داخلی: file_id ویدیو خالی است. لطفاً دوباره تلاش کنید."

def groupSuccessMsg : String := "درخواست شما ثبت شد و به n8n ارسال گردید. ✅"

/-- The displayed part of a workflow response body: `body?.slice(0, 400) || ""`. -/
def truncBody (body : Option String) : String :=
  match body with
  | some b => jsSlice b 400
  | none => ""

/-- The dispatch-failure text, shared verbatim by the group flow and the
confirm step. -/
def n8nFailMsg (status : Nat) (body : Option String) : String :=
  "ارسال به n8n با خطا مواجه شد (HTTP " ++ toString status ++ ").\n" ++ truncBody body

def noContentGroupMsg : String :=
  "پیام شما قابل‌خواندن نبود. لطفاً قالب را به صورت متن در یک پیام ارسال کنید.\n\n" ++ guidanceTemplate

def promptTitle : String := "عنوان ویدیو را ارسال کنید:"
def promptDesc : String := "توضیحات ویدیو را ارسال کنید:"
def promptTags : String := "تگ‌ها را با ویرگول جدا کنید.\nمثال: آموزش, برنامه نویسی, جاوااسکریپت"
def cancelMsg : String := "روند فعلی لغو شد. برای شروع دوباره، /start را بزنید."
def startFirstMsg : String := "برای شروع فرآیند آپلود، ابتدا /start را ارسال کنید و سپس ویدیو را بفرستید."
def notVideoMsg : String := "لطفاً ابتدا ویدیو را ارسال کنید (نه فایل اسناد).\nمی‌توانید ویدیو را مستقیماً در چت بفرستید."
def invalidTitleMsg : String := "عنوان نامعتبر است. لطفاً یک متن ارسال کنید."
def invalidDescMsg : String := "توضیحات نامعتبر است. لطفاً یک متن ارسال کنید."
def needTagMsg : String := "حداقل یک تگ وارد کنید (با ویرگول جدا کنید)."
def invalidTagsMsg : String := "ورودی نامعتبر. لطفاً تگ‌ها را با ویرگول جدا کنید."
def incompleteMsg : String := "اطلاعات ناقص است. لطفاً از ابتدا /start را ارسال کنید."
def privateSuccessMsg : String :=
  "درخواست با موفقیت برای n8n ارسال شد. منتظر آپلود یوتیوب بمانید.\nبرای شروع دوباره، /start را بزنید."
def confirmReminderMsg : String :=
  "برای تایید، کلمه confirm یا /confirm را ارسال کنید. برای لغو، cancel یا /cancel."
def cancelDoneMsg : String := "لغو شد. برای شروع دوباره، /start را بزنید."
def unknownStateMsg : String := "حالت ناشناخته. لطفاً /start را ارسال کنید."

/-! The update processor. -/

/-- The trimmed message text `(msg.text || "").trim()`. -/
def textOf (msg : TgMessage) : String := jsTrim (msg.text.getD "")

/-- The trimmed caption `(msg.caption || "").trim()`. -/
def captionOf (msg : TgMessage) : String := jsTrim (msg.caption.getD "")

/-- `content = text || caption`. -/
def contentOf (msg : TgMessage) : String :=
  if textOf msg ≠ "" then textOf msg else captionOf msg

/-- A document's file id when its media type starts with the video marker:
`doc?.mime_type?.startsWith("video/") ? doc?.file_id : undefined`. -/
def videoDocFileId (doc : Option TgDocument) : Option String :=
  match doc with
  | some d =>
    (match d.mime_type with
     | some m => if strStartsWith m "video/" then some d.file_id else none
     | none => none)
  | none => none

/-- `repliedVideoId`: the replied-to message's video, else its video-typed
document. -/
def repliedVideoId (msg : TgMessage) : Option String :=
  jsOrS (msg.reply_to_message.bind fun r => r.video.map (·.file_id))
        (match msg.reply_to_message with
         | some r => videoDocFileId r.document
         | none => none)

/-- `currentVideoId`: the current message's video, else its video-typed
document. -/
def currentVideoId (msg : TgMessage) : Option String :=
  jsOrS (msg.video.map (·.file_id)) (videoDocFileId msg.document)

/-- `videoFileId = parsed.source_link ? repliedVideoId : (repliedVideoId || currentVideoId)`. -/
def resolveVideoFileId (p : ParsedTemplate) (msg : TgMessage) : Option String :=
  if jsTruthyS p.source_link then repliedVideoId msg
  else jsOrS (repliedVideoId msg) (currentVideoId msg)

def payloadFromOf (u : Option TgUser) : Option PayloadFrom :=
  u.map fun x =>
    { id := x.id, username := x.username, first_name := x.first_name,
      last_name := x.last_name, language_code := x.language_code }

/-- The payload dispatched by the group flow. -/
def groupPayloadOf (ext : Ext) (msg : TgMessage) (p : ParsedTemplate) (fid : String) :
    N8nVideoPayload :=
  { chat_id := msg.chat.id, from_ := payloadFromOf msg.from_,
    message_id := msg.message_id, date := msg.date,
    video := { file_id := fid, file_path := ext.filePath, file_size := ext.fileSize },
    title := p.title.getD "", description := p.description.getD "", tags := p.tags.getD [],
    source_link := p.source_link, channel := p.channel }

/-- The payload dispatched by the private confirm step. -/
def privatePayloadOf (chatId : Int) (sender : Option TgUser) (message_id : Nat) (date : Nat)
    (s : ChatState) : N8nVideoPayload :=
  { chat_id := chatId, from_ := payloadFromOf sender, message_id := message_id, date := date,
    video := { file_id := s.video_file_id.getD "" },
    title := s.title.getD "", description := s.description.getD "", tags := s.tags.getD [] }

/-- The media-resolution/validation/dispatch block of the group path (source
lines 79-154), entered once the parsed template is complete: chat action,
video-reference resolution, falsy check, file-metadata validation, defensive
empty re-check, payload build and dispatch. -/
def groupDispatchFlow (ext : Ext) (msg : TgMessage) (p : ParsedTemplate) : Effects :=
  let videoFileId := resolveVideoFileId p msg
  if jsTruthyS videoFileId = false then
    { actions := ["typing"],
      messages := [if jsTruthyS p.source_link then needReplyWithLink else needAttachOrReply] }
  else if ext.fileOk = false then
    { actions := ["typing"], messages := [fileErrorMsg ext.fileDescription] }
  else if jsTruthyS videoFileId = false ∨ jsTrim (videoFileId.getD "") = "" then
    { actions := ["typing"], messages := [internalEmptyMsg] }
  else
    let payload := groupPayloadOf ext msg p (videoFileId.getD "")
    if ext.n8nOk then
      { actions := ["typing"], dispatches := [payload], messages := [groupSuccessMsg] }
    else
      { actions := ["typing"], dispatches := [payload],
        messages := [n8nFailMsg ext.n8nStatus ext.n8nBody] }

/-- The group/mention path of `handleUpdate` (source lines 67-168). -/
def groupFlow (ext : Ext) (msg : TgMessage) (content : String) : Effects :=
  if isMentioned msg ext.botUsername ext.botId then
    if content ≠ "" then
      match parseGroupTemplate content ext.botUsername with
      | some p =>
        if templateComplete p then groupDispatchFlow ext msg p
        else { messages := [guidanceTemplate] }
      | none => { messages := [guidanceTemplate] }
    else { messages := [noContentGroupMsg] }
  else {}

/-- The cancel-keyword test `text === "/cancel" || text.toLowerCase() === "cancel" || text === "لغو"`. -/
def cancelKeyword (t : String) : Bool :=
  t == "/cancel" || jsLowerStr t == "cancel" || t == "لغو"

/-- The confirm-keyword test `text === "/confirm" || text.toLowerCase() === "confirm" || text === "تایید"`. -/
def confirmKeyword (t : String) : Bool :=
  t == "/confirm" || jsLowerStr t == "confirm" || t == "تایید"

/-- The private command/wizard path of `handleUpdate` (source lines 171-290).
It reads exactly the chat id, trimmed text, video attachment, sender,
message id and date of the inbound message, passed here as arguments. -/
def privateFlow (ext : Ext) (st : Option ChatState) (chatId : Int) (text : String)
    (video : Option TgVideo) (sender : Option TgUser) (message_id : Nat) (date : Nat) : Effects :=
  if text = "/start" then
    { repoOps := [.delete chatId,
                  .save { chatId := chatId, step := "awaiting_video", updatedAt := ext.now }],
      messages := [msgWelcome] }
  else if cancelKeyword text then
    { repoOps := [.delete chatId], messages := [cancelMsg] }
  else
    match st with
    | none =>
      match video with
      | some v =>
        { repoOps := [.save { chatId := chatId, step := "awaiting_title",
                              video_file_id := some v.file_id, updatedAt := ext.now }],
          messages := [promptTitle] }
      | none => { messages := [startFirstMsg] }
    | some state =>
      if state.step = "awaiting_video" then
        if jsTruthyS (video.map (·.file_id)) then
          { repoOps := [.save { state with
                                video_file_id := (video.map (·.file_id)),
                                step := "awaiting_title", updatedAt := ext.now }],
            messages := [promptTitle] }
        else { messages := [notVideoMsg] }
      else if state.step = "awaiting_title" then
        if text ≠ "" then
          { repoOps := [.save { state with
                                title := some (limit text 100),
                                step := "awaiting_description", updatedAt := ext.now }],
            messages := [promptDesc] }
        else { messages := [invalidTitleMsg] }
      else if state.step = "awaiting_description" then
        if text ≠ "" then
          { repoOps := [.save { state with
                                description := some (limit text 5000),
                                step := "awaiting_tags", updatedAt := ext.now }],
            messages := [promptTags] }
        else { messages := [invalidDescMsg] }
      else if state.step = "awaiting_tags" then
        if text ≠ "" then
          let tags := parseTags text
          if tags.length = 0 then { messages := [needTagMsg] }
          else
            let state' := { state with
                            tags := some tags, step := "awaiting_confirm",
                            updatedAt := ext.now }
            { repoOps := [.save state'], messages := [msgConfirm state'] }
        else { messages := [invalidTagsMsg] }
      else if state.step = "awaiting_confirm" then
        if confirmKeyword text then
          if jsTruthyS state.video_file_id = false ∨ jsTruthyS state.title = false ∨
              jsTruthyS state.description = false ∨ state.tags = none then
            { messages := [incompleteMsg], repoOps := [.delete chatId] }
          else
            let payload := privatePayloadOf chatId sender message_id date state
            if ext.n8nOk then
              { actions := ["typing"], dispatches := [payload],
                messages := [privateSuccessMsg], repoOps := [.delete chatId] }
            else
              { actions := ["typing"], dispatches := [payload],
                messages := [n8nFailMsg ext.n8nStatus ext.n8nBody] }
        else if cancelKeyword text then
          { repoOps := [.delete chatId], messages := [cancelDoneMsg] }
        else { messages := [confirmReminderMsg] }
      else
        { repoOps := [.delete chatId], messages := [unknownStateMsg] }

/-- `handleUpdate` from the source: no message is a no-op; group and
supergroup chats go through the mention/template path, everything else
through the command/wizard path.  `st` is the repository content for this
chat (`repo.get(chatId)`), `ext` the collaborator responses. -/
def handleUpdate (ext : Ext) (st : Option ChatState) (update : TgUpdate) : Effects :=
  match update.message with
  | none => {}
  | some msg =>
    if msg.chat.type = "group" ∨ msg.chat.type = "supergroup" then
      groupFlow ext msg (contentOf msg)
    else
      privateFlow ext st msg.chat.id (textOf msg) msg.video msg.from_ msg.message_id msg.date

/-- Apply one repository operation to the stored state of a chat. -/
def applyOp (st : Option ChatState) : RepoOp → Option ChatState
  | .save s => some s
  | .delete _ => none

/-- Apply the repository operations of one update in order. -/
def applyOps (st : Option ChatState) (ops : List RepoOp) : Option ChatState :=
  ops.foldl applyOp st

/-- Successor along the fixed wizard sequence. -/
def stepNext : String → Option String
  | "awaiting_video" => some "awaiting_title"
  | "awaiting_title" => some "awaiting_description"
  | "awaiting_description" => some "awaiting_tags"
  | "awaiting_tags" => some "awaiting_confirm"
  | _ => none

/-! Spec-side predicates transcribed from individual claims, for comparison
with the code-side definitions above. -/

/-- The mention characterization stated by claim C3: an exact entity match,
or the substring fallback applied ONLY when no entity metadata is present.
Transcribed from the claim's words, to be compared with `isMentioned`. -/
def mentionedClaim (msg : TgMessage) (handle : String) (botId : Int) : Bool :=
  let text := effText msg
  (allEntities msg).any (fun e =>
    (e.type == "mention"
      && (jsLowerStr (jsSubstring text e.offset (e.offset + e.length))
            == jsLowerStr ("@" ++ handle)))
    || (e.type == "text_mention" && (match e.user with | some u => u.id == botId | none => false)))
  || ((allEntities msg).isEmpty && strContains (jsLowerStr text) (jsLowerStr ("@" ++ handle)))

/-- The step-specific validation failures enumerated by claim C7: no video at
`awaiting_video`, empty text at the three text-collecting steps, zero parsed
tags at `awaiting_tags`, an unrecognized keyword at `awaiting_confirm`.
Global commands (`/start` and the cancel keywords) are recognized inputs at
every step, not validation failures, and are excluded separately. -/
def failsValidation (s : ChatState) (video : Option TgVideo) (text : String) : Prop :=
  (s.step = "awaiting_video" ∧ jsTruthyS (video.map (·.file_id)) = false)
  ∨ (s.step = "awaiting_title" ∧ text = "")
  ∨ (s.step = "awaiting_description" ∧ text = "")
  ∨ (s.step = "awaiting_tags" ∧ (text = "" ∨ parseTags text = []))
  ∨ (s.step = "awaiting_confirm" ∧ confirmKeyword text = false ∧ cancelKeyword text = false)

/-! Concrete inputs used by witnesses and counterexamples. -/

/-- A group message whose only entity is irrelevant but whose raw text
contains the handle: the code's fallback fires although entity metadata is
present. -/
def msgC3 : TgMessage :=
  { message_id := 1, chat := { id := 40, type := "group" }, date := 1,
    text := some "hi @bot",
    entities := some [{ offset := 0, length := 2, type := "bold" }] }

def tplC4 : String :=
  "@bot\nآپلود\nhttps://t.me/c/55\nعنوان:\nMy title\nتوضیح:\nMy desc\nتگ ها:\ntag1, tag2"

/-- Group message carrying a complete template with a source link, replying
to a video message, while itself also carrying a video attachment. -/
def msgC4 : TgMessage :=
  { message_id := 10, chat := { id := 77, type := "group" }, date := 1000,
    text := some tplC4,
    video := some { file_id := "VID_C" },
    reply_to_message := some { video := some { file_id := "VID_R" } } }

def extBase : Ext := { botUsername := some "bot", botId := some 7 }

def pC4 : ParsedTemplate :=
  { source_link := some "https://t.me/c/55", title := some "My title",
    description := some "My desc", tags := some ["tag1", "tag2"] }

def sC5 : ChatState :=
  { chatId := 5, step := "awaiting_confirm", video_file_id := some "V",
    title := some "T", description := some "D", tags := some ["a"], updatedAt := 9 }

def msgC5 : TgMessage :=
  { message_id := 13, chat := { id := 5, type := "private" }, date := 1003,
    text := some "/confirm" }

def extC5fail : Ext :=
  { botUsername := some "bot", botId := some 7, n8nOk := false, n8nStatus := 500,
    n8nBody := some "boom" }

/-- Group message carrying a template with title and description but no tags. -/
def msgC6 : TgMessage :=
  { message_id := 12, chat := { id := 79, type := "group" }, date := 1002,
    text := some "@bot\nعنوان:\nT\nتوضیح:\nD" }

def pC6 : ParsedTemplate := { title := some "T", description := some "D" }

def sC7 : ChatState := { chatId := 6, step := "awaiting_title", updatedAt := 1 }

/-- A private message whose text trims to empty. -/
def msgC7 : TgMessage :=
  { message_id := 1, chat := { id := 6, type := "private" }, date := 1, text := some "  " }

def msgC8 : TgMessage :=
  { message_id := 2, chat := { id := 6, type := "private" }, date := 2, text := some "/start" }

def tplC9 : String := "@bot\nعنوان:\nT\nتوضیح:\nD\nتگ ها:\nx"

/-- Group message with a complete template replying to a video whose file id
is a single space: truthy, so it passes the falsy check, yet trims to empty. -/
def msgC9 : TgMessage :=
  { message_id := 11, chat := { id := 78, type := "group" }, date := 1001,
    text := some tplC9,
    reply_to_message := some { video := some { file_id := " " } } }

def pC9 : ParsedTemplate :=
  { title := some "T", description := some "D", tags := some ["x"] }

/-- A private message with empty text and no caption; the C10 witness compares
it against the same message carrying a command keyword as its caption. -/
def msgC10 : TgMessage :=
  { message_id := 3, chat := { id := 50, type := "private" }, date := 3,
    text := some "" }

/-! Lemmas about the tag-splitting pipelines. -/

theorem dropWhile_length_le (p : Char → Bool) :
    ∀ l : List Char, (l.dropWhile p).length ≤ l.length := by
  intro l
  induction l with
  | nil => simp
  | cons c t ih =>
    rw [List.dropWhile_cons]
    split
    · exact Nat.le_succ_of_le ih
    · exact Nat.le_refl _

theorem mem_of_dropWhile (p : Char → Bool) :
    ∀ {l : List Char} {a : Char}, a ∈ l.dropWhile p → a ∈ l := by
  intro l
  induction l with
  | nil => intro a h; simpa using h
  | cons c t ih =>
    intro a h
    rw [List.dropWhile_cons] at h
    by_cases hp : p c
    · rw [if_pos hp] at h
      exact List.mem_cons_of_mem _ (ih h)
    · rw [if_neg hp] at h
      exact h

theorem all_dropWhile (q p : Char → Bool) (l : List Char) (h : l.all q = true) :
    (l.dropWhile p).all q = true := by
  rw [List.all_eq_true] at h ⊢
  intro x hx
  exact h x (mem_of_dropWhile p hx)

theorem hasAndTriple_cons (c : Char) (t : List Char) (h : hasAndTriple t = true) :
    hasAndTriple (c :: t) = true := by
  match t with
  | [] => simp [hasAndTriple] at h
  | [x] => simp [hasAndTriple] at h
  | x :: y :: rest => simp [hasAndTriple, h]

theorem hasAndTriple_tail (c : Char) (t : List Char) (h : hasAndTriple (c :: t) = false) :
    hasAndTriple t = false := by
  cases htv : hasAndTriple t with
  | false => rfl
  | true => rw [hasAndTriple_cons c t htv] at h; simp at h

theorem hasAndTriple_dropWhile_mono (p : Char → Bool) :
    ∀ l : List Char, hasAndTriple (l.dropWhile p) = true → hasAndTriple l = true := by
  intro l
  induction l with
  | nil => simp [List.dropWhile]
  | cons c t ih =>
    intro h
    rw [List.dropWhile_cons] at h
    by_cases hp : p c
    · rw [if_pos hp] at h
      exact hasAndTriple_cons _ _ (ih h)
    · rw [if_neg hp] at h
      exact h

theorem hasAndTriple_dropWhile (p : Char → Bool) (l : List Char)
    (h : hasAndTriple l = false) : hasAndTriple (l.dropWhile p) = false := by
  cases hv : hasAndTriple (l.dropWhile p) with
  | false => rfl
  | true => rw [hasAndTriple_dropWhile_mono p l hv] at h; simp at h

theorem all_cons_split {p : Char → Bool} {c : Char} {t : List Char}
    (h : (c :: t).all p = true) : p c = true ∧ t.all p = true := by
  simp only [List.all_cons, Bool.and_eq_true] at h
  exact h

theorem okChar_spec {c : Char} (h : okChar c = true) : c ≠ '،' ∧ c ≠ '\n' ∧ c ≠ 'و' := by
  have h' : (¬c = '،' ∧ ¬c = '\n') ∧ ¬c = 'و' := by simpa [okChar] using h
  exact ⟨h'.1.1, h'.1.2, h'.2⟩

theorem matchSep_comma (rest : List Char) :
    matchSep (',' :: rest) = some (rest.dropWhile isSepChar) := by
  simp [matchSep, isSepChar]

theorem matchAfterWs_none (l : List Char) (hok : l.all okChar = true)
    (hand : hasAndTriple l = false) : matchAfterWs l = none := by
  match l with
  | [] => rfl
  | x :: r =>
    have hxok : okChar x = true := (all_cons_split hok).1
    obtain ⟨_, _, hxv⟩ := okChar_spec hxok
    match r with
    | [] => simp [matchAfterWs, hxv]
    | [y] => simp [matchAfterWs, hxv]
    | n :: d :: r2 =>
      have hg : (isCharA x && isCharN n && isCharD d) = false := by
        cases hgv : (isCharA x && isCharN n && isCharD d) with
        | false => rfl
        | true =>
          have : hasAndTriple (x :: n :: d :: r2) = true := by
            simp [hasAndTriple, hgv]
          rw [this] at hand
          simp at hand
      simp [matchAfterWs, hxv, hg]

theorem matchSep_none_of_ok (c : Char) (rest : List Char)
    (hok : (c :: rest).all okChar = true) (hand : hasAndTriple (c :: rest) = false)
    (hc : c ≠ ',') : matchSep (c :: rest) = none := by
  have hcok : okChar c = true := (all_cons_split hok).1
  obtain ⟨h1, h2, _⟩ := okChar_spec hcok
  have hsep : isSepChar c = false := by simp [isSepChar, hc, h1, h2]
  have hall : ((c :: rest).dropWhile isJsWs).all okChar = true := all_dropWhile _ _ _ hok
  have hand' : hasAndTriple ((c :: rest).dropWhile isJsWs) = false :=
    hasAndTriple_dropWhile _ _ hand
  simp [matchSep, hsep, matchAfterWs_none _ hall hand']

theorem prependHead_nil (S : List (List Char)) (h : S ≠ []) : prependHead [] S = S := by
  cases S with
  | nil => exact absurd rfl h
  | cons a t => simp [prependHead]

theorem prependHead_consHead (p : List Char) (c : Char) (S : List (List Char)) :
    prependHead p (consHead c S) = prependHead (p ++ [c]) S := by
  cases S with
  | nil => simp [prependHead, consHead]
  | cons a t => simp [prependHead, consHead]

theorem splitEveryComma_ne_nil (cs : List Char) : splitEveryComma cs ≠ [] := by
  cases cs with
  | nil => simp [splitEveryComma]
  | cons c t =>
    simp only [splitEveryComma]
    split
    · simp
    · cases h : splitEveryComma t <;> simp [consHead]

theorem trimFilter_cons (a : List Char) (xs : List (List Char)) :
    trimFilter (a :: xs) =
      if jsTrimL a = [] then trimFilter xs else jsTrimL a :: trimFilter xs := by
  by_cases h : jsTrimL a = [] <;> simp [trimFilter, List.filter_cons, h]

theorem trimFilter_splitEveryComma_dropComma :
    ∀ cs : List Char,
      trimFilter (splitEveryComma (cs.dropWhile (fun x => decide (x = ',')))) =
        trimFilter (splitEveryComma cs) := by
  intro cs
  induction cs with
  | nil => rfl
  | cons c t ih =>
    by_cases hc : c = ','
    · subst hc
      rw [List.dropWhile_cons, if_pos (by decide), ih]
      have hsec : splitEveryComma (',' :: t) = [] :: splitEveryComma t := by
        simp [splitEveryComma]
      rw [hsec, trimFilter_cons]
      simp [jsTrimL]
    · rw [List.dropWhile_cons, if_neg (by simp [hc])]

theorem dropSep_eq_dropComma :
    ∀ l : List Char, l.all okChar = true →
      l.dropWhile isSepChar = l.dropWhile (fun x => decide (x = ',')) := by
  intro l
  induction l with
  | nil => intro _; rfl
  | cons c t ih =>
    intro h
    obtain ⟨hc, ht⟩ := all_cons_split h
    obtain ⟨h1, h2, _⟩ := okChar_spec hc
    rw [List.dropWhile_cons, List.dropWhile_cons]
    by_cases hcc : c = ','
    · subst hcc
      rw [if_pos (by decide), if_pos (by decide)]
      exact ih ht
    · rw [if_neg (by simp [isSepChar, hcc, h1, h2]), if_neg (by simp [hcc])]

theorem splitAux_eq_comma :
    ∀ (fuel : Nat) (cs acc : List Char), cs.length ≤ fuel →
      cs.all okChar = true → hasAndTriple cs = false →
      trimFilter (splitAux fuel cs acc) =
        trimFilter (prependHead acc.reverse (splitEveryComma cs)) := by
  intro fuel
  induction fuel with
  | zero =>
    intro cs acc hlen _ _
    have hnil : cs = [] := List.length_eq_zero.mp (Nat.le_zero.mp hlen)
    subst hnil
    simp [splitAux, splitEveryComma, prependHead]
  | succ f ih =>
    intro cs acc hlen h1 h2
    cases cs with
    | nil => simp [splitAux, splitEveryComma, prependHead]
    | cons c rest =>
      rw [List.length_cons] at hlen
      have hlen' : rest.length ≤ f := by omega
      have hro : rest.all okChar = true := (all_cons_split h1).2
      have h2t : hasAndTriple rest = false := hasAndTriple_tail c rest h2
      by_cases hc : c = ','
      · subst hc
        have hstep : splitAux (f + 1) (',' :: rest) acc
            = acc.reverse :: splitAux f (rest.dropWhile isSepChar) [] := by
          simp [splitAux, matchSep_comma]
        rw [hstep]
        have hrok : (rest.dropWhile isSepChar).all okChar = true :=
          all_dropWhile okChar isSepChar rest hro
        have hrand : hasAndTriple (rest.dropWhile isSepChar) = false :=
          hasAndTriple_dropWhile isSepChar rest h2t
        have hrlen : (rest.dropWhile isSepChar).length ≤ f :=
          Nat.le_trans (dropWhile_length_le _ _) hlen'
        have key := ih (rest.dropWhile isSepChar) [] hrlen hrok hrand
        rw [List.reverse_nil,
            prependHead_nil _ (splitEveryComma_ne_nil (rest.dropWhile isSepChar))] at key
        have hbridge : trimFilter (splitEveryComma (rest.dropWhile isSepChar))
            = trimFilter (splitEveryComma rest) := by
          rw [dropSep_eq_dropComma rest hro]
          exact trimFilter_splitEveryComma_dropComma rest
        have hsec : splitEveryComma (',' :: rest) = [] :: splitEveryComma rest := by
          simp [splitEveryComma]
        rw [hsec]
        show trimFilter (acc.reverse :: splitAux f (rest.dropWhile isSepChar) [])
            = trimFilter (prependHead acc.reverse ([] :: splitEveryComma rest))
        simp only [prependHead, List.append_nil]
        rw [trimFilter_cons, trimFilter_cons, key, hbridge]
      · have hstep : splitAux (f + 1) (c :: rest) acc = splitAux f rest (c :: acc) := by
          simp [splitAux, matchSep_none_of_ok c rest h1 h2 hc]
        rw [hstep]
        have key := ih rest (c :: acc) hlen' hro h2t
        rw [key, List.reverse_cons]
        have hsec : splitEveryComma (c :: rest) = consHead c (splitEveryComma rest) := by
          simp [splitEveryComma, hc]
        rw [hsec, prependHead_consHead]

theorem parseTagsL_eq_splitTagsL (cs : List Char) (h1 : cs.all okChar = true)
    (h2 : hasAndTriple cs = false) : parseTagsL cs = (splitTagsL cs).take 30 := by
  by_cases hnil : cs = []
  · subst hnil; rfl
  · unfold parseTagsL splitTagsL
    rw [if_neg hnil]
    have key := splitAux_eq_comma cs.length cs [] (Nat.le_refl _) h1 h2
    rw [List.reverse_nil, prependHead_nil _ (splitEveryComma_ne_nil cs)] at key
    have hj : jsSplitSep cs = splitAux cs.length cs [] := rfl
    rw [hj, key]

/-! Claims C1 and C2. -/

/-- Claim C1, evaluated on the code: `splitTags` splits at every occurrence of
the letter `و` — the `\s*` pieces of `\s*و\s*` match the empty string — so the
spec's example input is shredded into six fragments instead of the expected
three tags. -/
theorem C1_splitTags_at_spec_input :
    splitTags "آموزش, برنامه نویسی و جاوااسکریپت" =
      ["آم", "زش", "برنامه ن", "یسی", "جا", "ااسکریپت"] := by decide

/-- Counterexample to claim C2 as stated: on a newline-separated input the
wizard's `parseTags` (ASCII commas only) and the template parser's capped
`splitTags` disagree. -/
theorem C2_counterexample : parseTags "a\nb" ≠ (splitTags "a\nb").take 30 := by decide

/-- Claim C2 (amended): the wizard's `parseTags` splits only on ASCII commas;
it agrees with the template parser's capped tag splitting exactly on inputs
free of the extra separators (`،`, newline, the letter `و`, and the letters
`and`). -/
theorem C2_parseTags_eq_splitTags_on_comma_inputs (s : String)
    (h : noExtraSeps s.data = true) :
    parseTags s = (splitTags s).take 30 := by
  have h' : s.data.all okChar = true ∧ (!hasAndTriple s.data) = true := by
    simpa only [noExtraSeps, Bool.and_eq_true] using h
  obtain ⟨h1, h2⟩ := h'
  have h2' : hasAndTriple s.data = false := by
    cases hv : hasAndTriple s.data with
    | false => rfl
    | true => rw [hv] at h2; simp at h2
  unfold parseTags splitTags
  rw [parseTagsL_eq_splitTagsL s.data h1 h2', List.map_take]

/-- Witness for the amended claim C2 at a concrete comma-separated input. -/
theorem C2_witness :
    noExtraSeps "tag1, tag2, #tag3".data = true ∧
      parseTags "tag1, tag2, #tag3" = (splitTags "tag1, tag2, #tag3").take 30 :=
  ⟨by decide, C2_parseTags_eq_splitTags_on_comma_inputs _ (by decide)⟩

/-! Unfolding lemmas for the update processor. -/

theorem handleUpdate_some (ext : Ext) (st : Option ChatState) (uid : Nat) (msg : TgMessage) :
    handleUpdate ext st { update_id := uid, message := some msg } =
      if msg.chat.type = "group" ∨ msg.chat.type = "supergroup" then
        groupFlow ext msg (contentOf msg)
      else
        privateFlow ext st msg.chat.id (textOf msg) msg.video msg.from_ msg.message_id
          msg.date := rfl

theorem handleUpdate_group (ext : Ext) (st : Option ChatState) (uid : Nat) (msg : TgMessage)
    (hgrp : msg.chat.type = "group" ∨ msg.chat.type = "supergroup") :
    handleUpdate ext st { update_id := uid, message := some msg } =
      groupFlow ext msg (contentOf msg) := by
  rw [handleUpdate_some, if_pos hgrp]

theorem handleUpdate_private (ext : Ext) (st : Option ChatState) (uid : Nat) (msg : TgMessage)
    (hpriv : ¬(msg.chat.type = "group" ∨ msg.chat.type = "supergroup")) :
    handleUpdate ext st { update_id := uid, message := some msg } =
      privateFlow ext st msg.chat.id (textOf msg) msg.video msg.from_ msg.message_id msg.date := by
  rw [handleUpdate_some, if_neg hpriv]

theorem parseGroupTemplate_empty (u : Option String) : parseGroupTemplate "" u = none := by
  cases hu : jsTruthyS u <;> simp only [parseGroupTemplate, hu] <;> rfl

theorem groupFlow_complete (ext : Ext) (msg : TgMessage) (content : String) (p : ParsedTemplate)
    (hm : isMentioned msg ext.botUsername ext.botId = true)
    (hc : content ≠ "")
    (hp : parseGroupTemplate content ext.botUsername = some p)
    (hcomp : templateComplete p = true) :
    groupFlow ext msg content = groupDispatchFlow ext msg p := by
  simp only [groupFlow, hm, if_true, if_pos hc, hp, hcomp]

theorem groupFlow_guidance (ext : Ext) (msg : TgMessage) (content : String) (p : ParsedTemplate)
    (hm : isMentioned msg ext.botUsername ext.botId = true)
    (hc : content ≠ "")
    (hp : parseGroupTemplate content ext.botUsername = some p)
    (hcomp : templateComplete p = false) :
    groupFlow ext msg content = { messages := [guidanceTemplate] } := by
  simp only [groupFlow, hm, if_true, if_pos hc, hp, hcomp, Bool.false_eq_true, if_false]

theorem content_ne_empty_of_parse (u : Option String) (content : String) (p : ParsedTemplate)
    (hp : parseGroupTemplate content u = some p) : content ≠ "" := by
  intro h
  rw [h, parseGroupTemplate_empty] at hp
  cases hp

theorem trim_ne_empty (fid : String) (h : jsTrim fid ≠ "") : fid ≠ "" := by
  intro he
  subst he
  exact h rfl

theorem groupDispatchFlow_needReply (ext : Ext) (msg : TgMessage) (p : ParsedTemplate)
    (hres : jsTruthyS (resolveVideoFileId p msg) = false) :
    groupDispatchFlow ext msg p =
      { actions := ["typing"],
        messages := [if jsTruthyS p.source_link then needReplyWithLink else needAttachOrReply] } := by
  unfold groupDispatchFlow
  rw [if_pos hres]

theorem groupDispatchFlow_internal (ext : Ext) (msg : TgMessage) (p : ParsedTemplate)
    (fid : String) (hres : resolveVideoFileId p msg = some fid) (hfid : fid ≠ "")
    (htrim : jsTrim fid = "") (hfile : ext.fileOk = true) :
    groupDispatchFlow ext msg p = { actions := ["typing"], messages := [internalEmptyMsg] } := by
  have htr : jsTruthyS (some fid) = true := by simp [jsTruthyS, hfid]
  unfold groupDispatchFlow
  rw [hres]
  rw [if_neg (by simp [htr]), if_neg (by simp [hfile]), if_pos (Or.inr (by simpa using htrim))]

theorem groupDispatchFlow_dispatch (ext : Ext) (msg : TgMessage) (p : ParsedTemplate)
    (fid : String) (hres : resolveVideoFileId p msg = some fid) (htrim : jsTrim fid ≠ "")
    (hfile : ext.fileOk = true) :
    groupDispatchFlow ext msg p =
      if ext.n8nOk then
        { actions := ["typing"], dispatches := [groupPayloadOf ext msg p fid],
          messages := [groupSuccessMsg] }
      else
        { actions := ["typing"], dispatches := [groupPayloadOf ext msg p fid],
          messages := [n8nFailMsg ext.n8nStatus ext.n8nBody] } := by
  have hfid : fid ≠ "" := trim_ne_empty fid htrim
  have htr : jsTruthyS (some fid) = true := by simp [jsTruthyS, hfid]
  unfold groupDispatchFlow
  rw [hres]
  rw [if_neg (by simp [htr]), if_neg (by simp [hfile]),
      if_neg (by simp [htr, htrim])]
  rfl

theorem groupDispatchFlow_dispatches (ext : Ext) (msg : TgMessage) (p : ParsedTemplate)
    (fid : String) (hres : resolveVideoFileId p msg = some fid) (htrim : jsTrim fid ≠ "")
    (hfile : ext.fileOk = true) :
    (groupDispatchFlow ext msg p).dispatches = [groupPayloadOf ext msg p fid] := by
  rw [groupDispatchFlow_dispatch ext msg p fid hres htrim hfile]
  cases ext.n8nOk <;> rfl

/-! Claim C4. -/

/-- Claim C4: group-flow video-resolution precedence.  With a complete parsed
template and passing file validation: a template with a source link takes the
reference only from the replied-to message — dispatching its id no matter what
the current message carries, and demanding a reply when the replied-to message
has none; without a source link the replied-to reference is preferred and the
current message's reference is the fallback. -/
theorem C4_group_video_precedence (ext : Ext) (st : Option ChatState) (uid : Nat)
    (msg : TgMessage) (p : ParsedTemplate)
    (hgrp : msg.chat.type = "group" ∨ msg.chat.type = "supergroup")
    (hm : isMentioned msg ext.botUsername ext.botId = true)
    (hp : parseGroupTemplate (contentOf msg) ext.botUsername = some p)
    (hcomp : templateComplete p = true)
    (hfile : ext.fileOk = true) :
    (∀ fid, jsTruthyS p.source_link = true → repliedVideoId msg = some fid → jsTrim fid ≠ "" →
      (handleUpdate ext st { update_id := uid, message := some msg }).dispatches
        = [groupPayloadOf ext msg p fid])
    ∧ (jsTruthyS p.source_link = true → repliedVideoId msg = none →
      handleUpdate ext st { update_id := uid, message := some msg }
        = { actions := ["typing"], messages := [needReplyWithLink] })
    ∧ (∀ fid, jsTruthyS p.source_link = false → repliedVideoId msg = some fid →
        jsTrim fid ≠ "" →
      (handleUpdate ext st { update_id := uid, message := some msg }).dispatches
        = [groupPayloadOf ext msg p fid])
    ∧ (∀ fid, jsTruthyS p.source_link = false → repliedVideoId msg = none →
        currentVideoId msg = some fid → jsTrim fid ≠ "" →
      (handleUpdate ext st { update_id := uid, message := some msg }).dispatches
        = [groupPayloadOf ext msg p fid]) := by
  have hc : contentOf msg ≠ "" := content_ne_empty_of_parse _ _ _ hp
  have hflow : handleUpdate ext st { update_id := uid, message := some msg }
      = groupDispatchFlow ext msg p := by
    rw [handleUpdate_group ext st uid msg hgrp, groupFlow_complete ext msg _ p hm hc hp hcomp]
  refine ⟨?_, ?_, ?_, ?_⟩
  · intro fid hsl hrep htrim
    have hres : resolveVideoFileId p msg = some fid := by
      unfold resolveVideoFileId
      rw [if_pos hsl, hrep]
    rw [hflow, groupDispatchFlow_dispatches ext msg p fid hres htrim hfile]
  · intro hsl hrep
    have hresv : resolveVideoFileId p msg = none := by
      unfold resolveVideoFileId
      rw [if_pos hsl, hrep]
    have hres : jsTruthyS (resolveVideoFileId p msg) = false := by rw [hresv]; rfl
    rw [hflow, groupDispatchFlow_needReply ext msg p hres]
    rw [if_pos hsl]
  · intro fid hsl hrep htrim
    have hfid : fid ≠ "" := trim_ne_empty fid htrim
    have hres : resolveVideoFileId p msg = some fid := by
      unfold resolveVideoFileId
      rw [if_neg (by simp [hsl]), hrep]
      unfold jsOrS
      rw [if_pos (by simp [jsTruthyS, hfid])]
    rw [hflow, groupDispatchFlow_dispatches ext msg p fid hres htrim hfile]
  · intro fid hsl hrep hcur htrim
    have hres : resolveVideoFileId p msg = some fid := by
      unfold resolveVideoFileId
      rw [if_neg (by simp [hsl]), hrep, hcur]
      unfold jsOrS
      rw [if_neg (by simp [jsTruthyS])]
    rw [hflow, groupDispatchFlow_dispatches ext msg p fid hres htrim hfile]

/-- Witness for claim C4: the complete template of `msgC4` has a source link,
the replied-to message holds video `VID_R`, the current message holds video
`VID_C`, and the dispatched payload carries `VID_R`. -/
theorem C4_witness :
    (handleUpdate extBase none { update_id := 1, message := some msgC4 }).dispatches
      = [groupPayloadOf extBase msgC4 pC4 "VID_R"] := by
  have h := C4_group_video_precedence extBase none 1 msgC4 pC4 (by decide) (by decide)
    (by decide) (by decide) (by decide)
  exact h.1 "VID_R" (by decide) (by decide) (by decide)

/-! Claim C6. -/

/-- Claim C6: in the group flow, a mentioned message whose template parses to
at least one field but is incomplete (no title, no description, or zero tags)
produces exactly the guidance message — no dispatch, no chat action, and no
repository operation; the result does not depend on the stored state at all. -/
theorem C6_partial_template_guidance (ext : Ext) (st : Option ChatState) (uid : Nat)
    (msg : TgMessage) (p : ParsedTemplate)
    (hgrp : msg.chat.type = "group" ∨ msg.chat.type = "supergroup")
    (hm : isMentioned msg ext.botUsername ext.botId = true)
    (hp : parseGroupTemplate (contentOf msg) ext.botUsername = some p)
    (hcomp : templateComplete p = false) :
    handleUpdate ext st { update_id := uid, message := some msg }
      = { messages := [guidanceTemplate] } := by
  have hc : contentOf msg ≠ "" := content_ne_empty_of_parse _ _ _ hp
  rw [handleUpdate_group ext st uid msg hgrp, groupFlow_guidance ext msg _ p hm hc hp hcomp]

/-- Witness for claim C6: a template with title and description but no tags is
answered with the guidance text, independently of a stored wizard state. -/
theorem C6_witness :
    handleUpdate extBase (some sC5) { update_id := 3, message := some msgC6 }
      = { messages := [guidanceTemplate] } :=
  C6_partial_template_guidance extBase (some sC5) 3 msgC6 pC6 (by decide) (by decide)
    (by decide) (by decide)

/-! Claim C9. -/

/-- Counterexample to claim C9 as stated: this concrete group message passes
the earlier no-video-reference check (the resolved reference, a single space,
is truthy) and the file-metadata validation, yet the run ends in the
internal-error branch — the branch is reachable. -/
theorem C9_counterexample :
    jsTruthyS (resolveVideoFileId pC9 msgC9) = true ∧
      extBase.fileOk = true ∧
      parseGroupTemplate (contentOf msgC9) extBase.botUsername = some pC9 ∧
      templateComplete pC9 = true ∧
      (handleUpdate extBase none { update_id := 2, message := some msgC9 }).messages
        = [internalEmptyMsg] ∧
      (handleUpdate extBase none { update_id := 2, message := some msgC9 }).dispatches = [] := by
  decide

/-- Claim C9 (amended): at the defensive re-check the resolved reference is
always a non-empty string — the `!videoFileId` half of the guard is dead — but
the branch itself is reachable: it fires exactly when the reference trims to
the empty string, which a whitespace-only file id achieves. -/
theorem C9_internal_guard (ext : Ext) (st : Option ChatState) (uid : Nat)
    (msg : TgMessage) (p : ParsedTemplate)
    (hgrp : msg.chat.type = "group" ∨ msg.chat.type = "supergroup")
    (hm : isMentioned msg ext.botUsername ext.botId = true)
    (hp : parseGroupTemplate (contentOf msg) ext.botUsername = some p)
    (hcomp : templateComplete p = true)
    (hres : jsTruthyS (resolveVideoFileId p msg) = true)
    (hfile : ext.fileOk = true) :
    ∃ fid, resolveVideoFileId p msg = some fid ∧ fid ≠ "" ∧
      ((handleUpdate ext st { update_id := uid, message := some msg }).dispatches = []
        ↔ jsTrim fid = "") ∧
      (jsTrim fid = "" →
        handleUpdate ext st { update_id := uid, message := some msg }
          = { actions := ["typing"], messages := [internalEmptyMsg] }) := by
  have hc : contentOf msg ≠ "" := content_ne_empty_of_parse _ _ _ hp
  have hflow : handleUpdate ext st { update_id := uid, message := some msg }
      = groupDispatchFlow ext msg p := by
    rw [handleUpdate_group ext st uid msg hgrp, groupFlow_complete ext msg _ p hm hc hp hcomp]
  cases hval : resolveVideoFileId p msg with
  | none => rw [hval] at hres; simp [jsTruthyS] at hres
  | some fid =>
    have hfid : fid ≠ "" := by
      rw [hval] at hres
      simpa [jsTruthyS] using hres
    refine ⟨fid, rfl, hfid, ?_, ?_⟩
    · by_cases htrim : jsTrim fid = ""
      · rw [hflow, groupDispatchFlow_internal ext msg p fid hval hfid htrim hfile]
        simp [htrim]
      · rw [hflow, groupDispatchFlow_dispatches ext msg p fid hval htrim hfile]
        simp [htrim]
    · intro htrim
      rw [hflow, groupDispatchFlow_internal ext msg p fid hval hfid htrim hfile]

/-- Witness for the amended claim C9 at the whitespace-file-id input. -/
theorem C9_witness :
    ∃ fid, resolveVideoFileId pC9 msgC9 = some fid ∧ fid ≠ "" ∧
      ((handleUpdate extBase none { update_id := 2, message := some msgC9 }).dispatches = []
        ↔ jsTrim fid = "") ∧
      (jsTrim fid = "" →
        handleUpdate extBase none { update_id := 2, message := some msgC9 }
          = { actions := ["typing"], messages := [internalEmptyMsg] }) :=
  C9_internal_guard extBase none 2 msgC9 pC9 (by decide) (by decide) (by decide) (by decide)
    (by decide) (by decide)

/-! Lemmas about the private wizard path. -/

theorem confirmKeyword_cases {t : String} (h : confirmKeyword t = true) :
    t = "/confirm" ∨ jsLowerStr t = "confirm" ∨ t = "تایید" := by
  have h' : (t = "/confirm" ∨ jsLowerStr t = "confirm") ∨ t = "تایید" := by
    simpa [confirmKeyword, Bool.or_eq_true, beq_iff_eq] using h
  tauto

theorem confirm_not_start {t : String} (h : confirmKeyword t = true) : t ≠ "/start" := by
  intro he
  subst he
  exact absurd h (by decide)

theorem confirm_not_cancel {t : String} (h : confirmKeyword t = true) :
    cancelKeyword t = false := by
  rcases confirmKeyword_cases h with h1 | h1 | h1
  · subst h1; decide
  · unfold cancelKeyword
    have e1 : (t == "/cancel") = false := by
      cases he : t == "/cancel" with
      | false => rfl
      | true =>
        exfalso
        have ht : t = "/cancel" := by simpa using he
        rw [ht] at h1
        exact absurd h1 (by decide)
    have e2 : (jsLowerStr t == "cancel") = false := by
      rw [h1]; decide
    have e3 : (t == "لغو") = false := by
      cases he : t == "لغو" with
      | false => rfl
      | true =>
        exfalso
        have ht : t = "لغو" := by simpa using he
        rw [ht] at h1
        exact absurd h1 (by decide)
    rw [e1, e2, e3]
    rfl
  · subst h1; decide

/-- The confirm step with all four required fields truthy: typing action,
payload built from the stored state, dispatch, and on success a state delete
while on failure the state is untouched. -/
theorem privateFlow_confirm_complete (ext : Ext) (chatId : Int) (text : String)
    (video : Option TgVideo) (sender : Option TgUser) (mid date : Nat) (s : ChatState)
    (hstep : s.step = "awaiting_confirm") (hkw : confirmKeyword text = true)
    (hv : jsTruthyS s.video_file_id = true) (ht : jsTruthyS s.title = true)
    (hd : jsTruthyS s.description = true) (htags : s.tags ≠ none) :
    privateFlow ext (some s) chatId text video sender mid date =
      if ext.n8nOk then
        { repoOps := [.delete chatId], messages := [privateSuccessMsg], actions := ["typing"],
          dispatches := [privatePayloadOf chatId sender mid date s] }
      else
        { messages := [n8nFailMsg ext.n8nStatus ext.n8nBody], actions := ["typing"],
          dispatches := [privatePayloadOf chatId sender mid date s] } := by
  have hns : text ≠ "/start" := confirm_not_start hkw
  have hnc : cancelKeyword text = false := confirm_not_cancel hkw
  simp only [privateFlow]
  rw [if_neg hns, if_neg (by simp [hnc])]
  rw [if_neg (show ¬s.step = "awaiting_video" by rw [hstep]; decide)]
  rw [if_neg (show ¬s.step = "awaiting_title" by rw [hstep]; decide)]
  rw [if_neg (show ¬s.step = "awaiting_description" by rw [hstep]; decide)]
  rw [if_neg (show ¬s.step = "awaiting_tags" by rw [hstep]; decide)]
  rw [if_pos hstep, if_pos hkw]
  rw [if_neg (by simp [hv, ht, hd, htags])]

/-! Claim C5. -/

/-- Claim C5: at the confirm step with all four required fields present, a
successful dispatch confirms to the user and deletes the state; a failed
dispatch relays the HTTP status with the response body truncated to at most
400 characters, issues no repository operation — the state survives unchanged
— and any subsequent confirm dispatches the payload again. -/
theorem C5_confirm_outcome (ext : Ext) (s : ChatState) (uid : Nat) (msg : TgMessage)
    (hpriv : ¬(msg.chat.type = "group" ∨ msg.chat.type = "supergroup"))
    (hstep : s.step = "awaiting_confirm")
    (hkw : confirmKeyword (textOf msg) = true)
    (hv : jsTruthyS s.video_file_id = true) (ht : jsTruthyS s.title = true)
    (hd : jsTruthyS s.description = true) (htags : s.tags ≠ none) :
    (ext.n8nOk = true →
      handleUpdate ext (some s) { update_id := uid, message := some msg }
        = { repoOps := [.delete msg.chat.id], messages := [privateSuccessMsg],
            actions := ["typing"],
            dispatches := [privatePayloadOf msg.chat.id msg.from_ msg.message_id msg.date s] })
    ∧ (ext.n8nOk = false →
      handleUpdate ext (some s) { update_id := uid, message := some msg }
        = { messages := [n8nFailMsg ext.n8nStatus ext.n8nBody], actions := ["typing"],
            dispatches := [privatePayloadOf msg.chat.id msg.from_ msg.message_id msg.date s] }
      ∧ (truncBody ext.n8nBody).length ≤ 400
      ∧ applyOps (some s)
          (handleUpdate ext (some s) { update_id := uid, message := some msg }).repoOps
          = some s
      ∧ ∀ (ext₂ : Ext) (uid₂ : Nat) (msg₂ : TgMessage),
          ¬(msg₂.chat.type = "group" ∨ msg₂.chat.type = "supergroup") →
          confirmKeyword (textOf msg₂) = true →
          (handleUpdate ext₂ (some s) { update_id := uid₂, message := some msg₂ }).dispatches
            = [privatePayloadOf msg₂.chat.id msg₂.from_ msg₂.message_id msg₂.date s]) := by
  have hbody : (truncBody ext.n8nBody).length ≤ 400 := by
    cases hb : ext.n8nBody with
    | none => decide
    | some b => exact List.length_take_le 400 b.data
  constructor
  · intro hok
    rw [handleUpdate_private ext (some s) uid msg hpriv,
      privateFlow_confirm_complete ext msg.chat.id (textOf msg) msg.video msg.from_
        msg.message_id msg.date s hstep hkw hv ht hd htags,
      if_pos hok]
  · intro hfail
    have hmain : handleUpdate ext (some s) { update_id := uid, message := some msg }
        = { messages := [n8nFailMsg ext.n8nStatus ext.n8nBody], actions := ["typing"],
            dispatches := [privatePayloadOf msg.chat.id msg.from_ msg.message_id msg.date s] } := by
      rw [handleUpdate_private ext (some s) uid msg hpriv,
        privateFlow_confirm_complete ext msg.chat.id (textOf msg) msg.video msg.from_
          msg.message_id msg.date s hstep hkw hv ht hd htags,
        if_neg (by simp [hfail])]
    refine ⟨hmain, hbody, ?_, ?_⟩
    · rw [hmain]; rfl
    · intro ext₂ uid₂ msg₂ hpriv₂ hkw₂
      rw [handleUpdate_private ext₂ (some s) uid₂ msg₂ hpriv₂,
        privateFlow_confirm_complete ext₂ msg₂.chat.id (textOf msg₂) msg₂.video msg₂.from_
          msg₂.message_id msg₂.date s hstep hkw₂ hv ht hd htags]
      cases ext₂.n8nOk <;> rfl

/-- Witness for claim C5 at a concrete failed-then-inspected dispatch. -/
theorem C5_witness :
    handleUpdate extC5fail (some sC5) { update_id := 4, message := some msgC5 }
      = { messages := [n8nFailMsg extC5fail.n8nStatus extC5fail.n8nBody],
          actions := ["typing"],
          dispatches := [privatePayloadOf msgC5.chat.id msgC5.from_ msgC5.message_id
            msgC5.date sC5] } :=
  ((C5_confirm_outcome extC5fail sC5 4 msgC5 (by decide) (by decide) (by decide) (by decide)
      (by decide) (by decide) (by decide)).2 (by decide)).1

/-! Claim C7. -/

/-- Claim C7: at every wizard step, a non-command input that fails that step's
validation produces no repository operation, so the stored state after the
update is exactly the state before. -/
theorem C7_idempotent_rejection (ext : Ext) (s : ChatState) (uid : Nat) (msg : TgMessage)
    (hpriv : ¬(msg.chat.type = "group" ∨ msg.chat.type = "supergroup"))
    (hnostart : textOf msg ≠ "/start")
    (hnocancel : cancelKeyword (textOf msg) = false)
    (hfail : failsValidation s msg.video (textOf msg)) :
    (handleUpdate ext (some s) { update_id := uid, message := some msg }).repoOps = [] ∧
      applyOps (some s)
        (handleUpdate ext (some s) { update_id := uid, message := some msg }).repoOps
        = some s := by
  suffices h :
      (handleUpdate ext (some s) { update_id := uid, message := some msg }).repoOps = [] by
    exact ⟨h, by rw [h]; rfl⟩
  rw [handleUpdate_private ext (some s) uid msg hpriv]
  simp only [privateFlow]
  rw [if_neg hnostart, if_neg (by simp [hnocancel])]
  rcases hfail with ⟨hs, hv⟩ | ⟨hs, htx⟩ | ⟨hs, htx⟩ | ⟨hs, htags⟩ | ⟨hs, hcf, hcl⟩
  · rw [if_pos hs, if_neg (by simp [hv])]
  · rw [if_neg (by rw [hs]; decide), if_pos hs, if_neg (by simp [htx])]
  · rw [if_neg (by rw [hs]; decide), if_neg (by rw [hs]; decide), if_pos hs,
      if_neg (by simp [htx])]
  · rw [if_neg (by rw [hs]; decide), if_neg (by rw [hs]; decide),
      if_neg (by rw [hs]; decide), if_pos hs]
    rcases htags with htx | htags
    · rw [if_neg (by simp [htx])]
    · by_cases htx : textOf msg ≠ ""
      · rw [if_pos htx, if_pos (show (parseTags (textOf msg)).length = 0 by rw [htags]; rfl)]
      · rw [if_neg htx]
  · rw [if_neg (by rw [hs]; decide), if_neg (by rw [hs]; decide),
      if_neg (by rw [hs]; decide), if_neg (by rw [hs]; decide), if_pos hs,
      if_neg (by simp [hcf]), if_neg (by simp [hcl])]

/-- Witness for claim C7: whitespace-only text at the title step leaves the
state untouched. -/
theorem C7_witness :
    (handleUpdate extBase (some sC7) { update_id := 5, message := some msgC7 }).repoOps = [] ∧
      applyOps (some sC7)
        (handleUpdate extBase (some sC7) { update_id := 5, message := some msgC7 }).repoOps
        = some sC7 :=
  C7_idempotent_rejection extBase sC7 5 msgC7 (by decide) (by decide) (by decide)
    (Or.inr (Or.inl ⟨by decide, by decide⟩))

/-! Claim C8. -/

theorem repoOps_ite (c : Prop) [Decidable c] (a b : Effects) :
    (if c then a else b).repoOps = if c then a.repoOps else b.repoOps := by
  split <;> rfl

theorem groupDispatchFlow_repoOps (ext : Ext) (msg : TgMessage) (p : ParsedTemplate) :
    (groupDispatchFlow ext msg p).repoOps = [] := by
  simp [groupDispatchFlow, repoOps_ite]

theorem groupFlow_repoOps (ext : Ext) (msg : TgMessage) (content : String) :
    (groupFlow ext msg content).repoOps = [] := by
  unfold groupFlow
  cases hp : parseGroupTemplate content ext.botUsername <;>
    simp [hp, repoOps_ite, groupDispatchFlow_repoOps]

/-- The disjunction of state mutations claim C8 allows: a delete, a fresh
state at `awaiting_video`, a fresh implicit state at `awaiting_title` with the
video reference pre-filled, or a save advancing the loaded state's step by
exactly one position. -/
def allowedOp (st : Option ChatState) (op : RepoOp) : Prop :=
  (∃ cid, op = RepoOp.delete cid)
  ∨ (∃ cid n, op = RepoOp.save { chatId := cid, step := "awaiting_video", updatedAt := n })
  ∨ (∃ cid fid n, op = RepoOp.save
      { chatId := cid, step := "awaiting_title", video_file_id := some fid, updatedAt := n })
  ∨ (∃ s s', st = some s ∧ op = RepoOp.save s' ∧ stepNext s.step = some s'.step)

theorem privateFlow_repoOps_spec (ext : Ext) (st : Option ChatState) (chatId : Int)
    (text : String) (video : Option TgVideo) (sender : Option TgUser) (mid date : Nat) :
    ∀ op ∈ (privateFlow ext st chatId text video sender mid date).repoOps,
      allowedOp st op := by
  by_cases h1 : text = "/start"
  · simp only [privateFlow]
    rw [if_pos h1]
    intro op hop
    simp at hop
    rcases hop with h | h
    · exact Or.inl ⟨chatId, h⟩
    · exact Or.inr (Or.inl ⟨chatId, ext.now, h⟩)
  by_cases h2 : cancelKeyword text = true
  · simp only [privateFlow]
    rw [if_neg h1, if_pos h2]
    intro op hop
    simp at hop
    exact Or.inl ⟨chatId, hop⟩
  cases st with
  | none =>
    cases video with
    | some v =>
      simp only [privateFlow]
      rw [if_neg h1, if_neg h2]
      intro op hop
      simp at hop
      exact Or.inr (Or.inr (Or.inl ⟨chatId, v.file_id, ext.now, hop⟩))
    | none =>
      simp only [privateFlow]
      rw [if_neg h1, if_neg h2]
      intro op hop
      simp at hop
  | some s =>
    simp only [privateFlow]
    rw [if_neg h1, if_neg h2]
    by_cases h3 : s.step = "awaiting_video"
    · rw [if_pos h3]
      by_cases h4 : jsTruthyS (video.map (·.file_id)) = true
      · rw [if_pos h4]
        intro op hop
        simp at hop
        refine Or.inr (Or.inr (Or.inr ⟨s, _, rfl, hop, ?_⟩))
        rw [h3]
        rfl
      · rw [if_neg h4]
        intro op hop
        simp at hop
    rw [if_neg h3]
    by_cases h5 : s.step = "awaiting_title"
    · rw [if_pos h5]
      by_cases h6 : text ≠ ""
      · rw [if_pos h6]
        intro op hop
        simp at hop
        refine Or.inr (Or.inr (Or.inr ⟨s, _, rfl, hop, ?_⟩))
        rw [h5]
        rfl
      · rw [if_neg h6]
        intro op hop
        simp at hop
    rw [if_neg h5]
    by_cases h7 : s.step = "awaiting_description"
    · rw [if_pos h7]
      by_cases h8 : text ≠ ""
      · rw [if_pos h8]
        intro op hop
        simp at hop
        refine Or.inr (Or.inr (Or.inr ⟨s, _, rfl, hop, ?_⟩))
        rw [h7]
        rfl
      · rw [if_neg h8]
        intro op hop
        simp at hop
    rw [if_neg h7]
    by_cases h9 : s.step = "awaiting_tags"
    · rw [if_pos h9]
      by_cases h10 : text ≠ ""
      · rw [if_pos h10]
        by_cases h11 : (parseTags text).length = 0
        · rw [if_pos h11]
          intro op hop
          simp at hop
        · rw [if_neg h11]
          intro op hop
          simp at hop
          refine Or.inr (Or.inr (Or.inr ⟨s, _, rfl, hop, ?_⟩))
          rw [h9]
          rfl
      · rw [if_neg h10]
        intro op hop
        simp at hop
    rw [if_neg h9]
    by_cases h12 : s.step = "awaiting_confirm"
    · rw [if_pos h12]
      by_cases h13 : confirmKeyword text = true
      · rw [if_pos h13]
        by_cases h14 : jsTruthyS s.video_file_id = false ∨ jsTruthyS s.title = false ∨
            jsTruthyS s.description = false ∨ s.tags = none
        · rw [if_pos h14]
          intro op hop
          simp at hop
          exact Or.inl ⟨chatId, hop⟩
        · rw [if_neg h14]
          by_cases h15 : ext.n8nOk = true
          · rw [if_pos h15]
            intro op hop
            simp at hop
            exact Or.inl ⟨chatId, hop⟩
          · rw [if_neg h15]
            intro op hop
            simp at hop
      · rw [if_neg h13]
        by_cases h16 : cancelKeyword text = true
        · rw [if_pos h16]
          intro op hop
          simp at hop
          exact Or.inl ⟨chatId, hop⟩
        · rw [if_neg h16]
          intro op hop
          simp at hop
    · rw [if_neg h12]
      intro op hop
      simp at hop
      exact Or.inl ⟨chatId, hop⟩

/-- Claim C8: every repository operation issued by `handleUpdate` is a
delete, the creation of a fresh state (`awaiting_video` on `/start`, or
`awaiting_title` with the video pre-filled on an implicit start), or a save of
the loaded state advanced exactly one position along the wizard sequence —
the step never moves backward. -/
theorem C8_step_monotone (ext : Ext) (st : Option ChatState) (update : TgUpdate) :
    ∀ op ∈ (handleUpdate ext st update).repoOps, allowedOp st op := by
  cases update with
  | mk uid om =>
    cases om with
    | none =>
      intro op hop
      simp [handleUpdate] at hop
    | some msg =>
      by_cases hgrp : msg.chat.type = "group" ∨ msg.chat.type = "supergroup"
      · rw [handleUpdate_group ext st uid msg hgrp]
        intro op hop
        rw [groupFlow_repoOps] at hop
        simp at hop
      · rw [handleUpdate_private ext st uid msg hgrp]
        exact privateFlow_repoOps_spec ext st msg.chat.id (textOf msg) msg.video msg.from_
          msg.message_id msg.date

/-- Witness for claim C8: the delete issued by `/start` is an allowed
mutation. -/
theorem C8_witness : allowedOp none (RepoOp.delete 6) :=
  C8_step_monotone extBase none { update_id := 6, message := some msgC8 }
    (RepoOp.delete 6) (by decide)

/-! Claim C10. -/

/-- Claim C10: in a private conversation the processor never reads the caption
or the caption entities — commands, cancel/confirm keywords and the
text-collecting steps all consult only the message's text field — so the
outcome is unchanged under any replacement of the caption fields. -/
theorem C10_caption_ignored_private (ext : Ext) (st : Option ChatState) (uid : Nat)
    (msg : TgMessage)
    (hpriv : ¬(msg.chat.type = "group" ∨ msg.chat.type = "supergroup"))
    (c : Option String) (ce : Option (List TgMessageEntity)) :
    handleUpdate ext st
        { update_id := uid,
          message := some { msg with caption := c, caption_entities := ce } }
      = handleUpdate ext st { update_id := uid, message := some msg } := by
  rw [handleUpdate_private ext st uid { msg with caption := c, caption_entities := ce } hpriv,
    handleUpdate_private ext st uid msg hpriv]
  rfl

/-- Witness for claim C10: adding the cancel command as a caption to a private
message with empty text changes nothing. -/
theorem C10_witness :
    handleUpdate extBase none
        { update_id := 7,
          message := some { msgC10 with caption := some "/cancel", caption_entities := none } }
      = handleUpdate extBase none { update_id := 7, message := some msgC10 } :=
  C10_caption_ignored_private extBase none 7 msgC10 (by decide) (some "/cancel") none

/-! Claim C3. -/

/-- Counterexample to claim C3 as stated: this group message carries entity
metadata (a single irrelevant `bold` entity), so under the claim's
characterization the substring fallback must not apply and the message is not
a mention; the code nevertheless runs the fallback and reports a mention. -/
theorem C3_counterexample :
    isMentioned msgC3 (some "bot") (some 7) = true ∧ mentionedClaim msgC3 "bot" 7 = false := by
  decide

theorem jsLowerStr_at_ne (handle : String) : jsLowerStr ("@" ++ handle) ≠ "" := by
  cases handle with
  | mk l =>
    intro h
    have hd := congrArg String.data h
    simp [jsLowerStr] at hd

theorem strContains_nil_at (handle : String) :
    strContains (jsLowerStr "") (jsLowerStr ("@" ++ handle)) = false := by
  cases handle with
  | mk l => rfl

theorem entityHit_true_iff (text : String) (handle : String) (botId : Int)
    (e : TgMessageEntity) (hh : handle ≠ "") (hi : botId ≠ 0) :
    entityHit text (some handle) (some botId) e = true ↔
      ((e.type = "mention" ∧
          jsLowerStr (jsSubstring text e.offset (e.offset + e.length))
            = jsLowerStr ("@" ++ handle))
        ∨ (e.type = "text_mention" ∧ ∃ u, e.user = some u ∧ u.id = botId)) := by
  have hat := jsLowerStr_at_ne handle
  have htru : jsTruthyS (some handle) = true := by simp [jsTruthyS, hh]
  have htri : jsTruthyI (some botId) = true := by simp [jsTruthyI, hi]
  constructor
  · intro h
    unfold entityHit at h
    rw [Bool.or_eq_true] at h
    rcases h with h | h
    · right
      rw [Bool.and_eq_true, Bool.and_eq_true, Bool.and_eq_true] at h
      obtain ⟨⟨⟨hty, _⟩, _⟩, hmatch⟩ := h
      have hty' : e.type = "text_mention" := by simpa using hty
      cases hu : e.user with
      | none => rw [hu] at hmatch; simp at hmatch
      | some u =>
        rw [hu] at hmatch
        have hid : u.id = botId := by simpa using hmatch
        exact ⟨hty', u, rfl, hid⟩
    · left
      rw [Bool.and_eq_true, Bool.and_eq_true, Bool.and_eq_true] at h
      obtain ⟨⟨⟨hty, _⟩, _⟩, heq⟩ := h
      exact ⟨by simpa using hty, by simpa using heq⟩
  · intro h
    unfold entityHit
    rw [Bool.or_eq_true]
    rcases h with ⟨hty, heq⟩ | ⟨hty, u, hu, hid⟩
    · right
      have htext : (text != "") = true := by
        rcases eq_or_ne text "" with he | he
        · subst he
          have hsub : jsSubstring "" e.offset (e.offset + e.length) = "" := by
            simp [jsSubstring]
          rw [hsub] at heq
          exact absurd heq.symm hat
        · simp [he]
      rw [Bool.and_eq_true, Bool.and_eq_true, Bool.and_eq_true]
      exact ⟨⟨⟨by simp [hty], htru⟩, htext⟩, by simp [heq]⟩
    · left
      rw [Bool.and_eq_true, Bool.and_eq_true, Bool.and_eq_true]
      refine ⟨⟨⟨by simp [hty], ?_⟩, htri⟩, ?_⟩
      · rw [hu]
        simp only [decide_eq_true_eq]
        rw [hid]
        exact hi
      · rw [hu]
        simp [hid]

/-- Claim C3 (amended): with a non-empty handle and a non-zero bot id, the
code reports a mention exactly when some entity matches (covered text equal
to `@handle` case-insensitively, or a mentioned-user entity referencing the
bot id) or the raw text contains `@handle` case-insensitively — the substring
fallback applies whenever no entity matched, whether or not entity metadata
is present. -/
theorem C3_mention_characterization (msg : TgMessage) (handle : String) (botId : Int)
    (hh : handle ≠ "") (hi : botId ≠ 0) :
    isMentioned msg (some handle) (some botId) = true ↔
      ((∃ e ∈ allEntities msg,
          (e.type = "mention" ∧
            jsLowerStr (jsSubstring (effText msg) e.offset (e.offset + e.length))
              = jsLowerStr ("@" ++ handle))
          ∨ (e.type = "text_mention" ∧ ∃ u, e.user = some u ∧ u.id = botId))
        ∨ strContains (jsLowerStr (effText msg)) (jsLowerStr ("@" ++ handle)) = true) := by
  have htru : jsTruthyS (some handle) = true := by simp [jsTruthyS, hh]
  unfold isMentioned
  rw [if_neg (by simp [htru])]
  by_cases hany :
      (allEntities msg).any (entityHit (effText msg) (some handle) (some botId)) = true
  · rw [if_pos hany]
    refine ⟨fun _ => Or.inl ?_, fun _ => rfl⟩
    rw [List.any_eq_true] at hany
    obtain ⟨e, he, hhit⟩ := hany
    exact ⟨e, he, (entityHit_true_iff _ _ _ e hh hi).mp hhit⟩
  · rw [if_neg hany]
    have hanyprop : ¬ ∃ e ∈ allEntities msg,
        ((e.type = "mention" ∧
          jsLowerStr (jsSubstring (effText msg) e.offset (e.offset + e.length))
            = jsLowerStr ("@" ++ handle))
        ∨ (e.type = "text_mention" ∧ ∃ u, e.user = some u ∧ u.id = botId)) := by
      intro hex
      obtain ⟨e, he, hp⟩ := hex
      exact hany (List.any_eq_true.mpr ⟨e, he, (entityHit_true_iff _ _ _ e hh hi).mpr hp⟩)
    by_cases htext : effText msg = ""
    · rw [if_neg (by simp [htext])]
      constructor
      · intro h
        exact absurd h (by simp)
      · intro h
        rcases h with hex | hcont
        · exact absurd hex hanyprop
        · rw [htext, strContains_nil_at] at hcont
          exact absurd hcont (by simp)
    · rw [if_pos (by simp [htru, htext])]
      constructor
      · intro h
        exact Or.inr h
      · intro h
        rcases h with hex | hcont
        · exact absurd hex hanyprop
        · exact hcont

/-- Witness for the amended claim C3 at the counterexample message: the
characterization holds, and on this input both sides are true through the
fallback disjunct. -/
theorem C3_witness :
    isMentioned msgC3 (some "bot") (some 7) = true ↔
      ((∃ e ∈ allEntities msgC3,
          (e.type = "mention" ∧
            jsLowerStr (jsSubstring (effText msgC3) e.offset (e.offset + e.length))
              = jsLowerStr ("@" ++ "bot"))
          ∨ (e.type = "text_mention" ∧ ∃ u, e.user = some u ∧ u.id = 7))
        ∨ strContains (jsLowerStr (effText msgC3)) (jsLowerStr ("@" ++ "bot")) = true) :=
  C3_mention_characterization msgC3 "bot" 7 (by decide) (by decide)

end VideoBot
